import Mathlib

/-!
Verification development for the Snapmaker2Plugin repository.

The development shallowly embeds the plugin's discovery parsing
(SM2OutputDeviceManager._udpProcessor, _parse, addOutputDevice and
SM2OutputDevicePlugin.__onData) and the per-device session state machine
(SM2OutputDevice: requestWrite, setDeviceStatus, _onRequestFinished and the
signal handlers) as executable Lean functions over strings modelled as
lists of characters.  Stateful handlers become explicit state-passing
functions that also return the list of network requests issued and the
list of user-visible messages shown.
-/

/-- Strings of the embedded program are lists of characters. -/
abbrev Str := List Char

/-! ## Python string primitives used by the source -/

/-- Index of the first occurrence of `pat` as a contiguous substring of the
second argument, if any (the search of Python's `str.find`). -/
def findIdx? (pat : Str) : Str → Option Nat
  | [] => if pat.isPrefixOf [] then some 0 else none
  | a :: t =>
    if pat.isPrefixOf (a :: t) then some 0
    else (findIdx? pat t).map (· + 1)

/-- Python `resp.find(pat)`: first index of the substring, `-1` if absent. -/
def pyFind (s pat : Str) : Int :=
  match findIdx? pat s with
  | none => -1
  | some n => n

/-- Python `pat in s`: substring containment. -/
def containsSub (s pat : Str) : Bool :=
  (findIdx? pat s).isSome

/-- Index of the last occurrence of the character `c` in `s`, `-1` if
absent (Python `s.rfind(c)` for a one-character pattern). -/
def lastIdxOf (s : Str) (c : Char) : Int :=
  match s with
  | [] => -1
  | a :: t =>
    let r := lastIdxOf t c
    if r ≥ 0 then r + 1
    else if a = c then 0 else -1

/-- Resolution of a Python slice endpoint against a list of length `n`:
negative indices count from the end and clamp at 0. -/
def resolveIdx (n : Nat) (i : Int) : Nat :=
  if i < 0 then ((n : Int) + i).toNat else i.toNat

/-- Python `s[:e]`. -/
def pySliceTo (s : Str) (e : Int) : Str :=
  s.take (resolveIdx s.length e)

/-- Python `s[b:]`. -/
def pySliceFrom (s : Str) (b : Int) : Str :=
  s.drop (resolveIdx s.length b)

/-- Python `s[b:e]`. -/
def pySlice (s : Str) (b e : Int) : Str :=
  (s.take (resolveIdx s.length e)).drop (resolveIdx s.length b)

/-- Python `s.split(c)` for a one-character separator: the segments between
occurrences of `c`, with empty segments preserved. -/
def splitOnChar (c : Char) : Str → List Str
  | [] => [[]]
  | a :: t =>
    let r := splitOnChar c t
    if a = c then [] :: r
    else
      match r with
      | [] => [[a]]
      | h :: rt => (a :: h) :: rt

/-! ## Discovery reply parsing (SM2OutputDeviceManager) -/

/-- Marker `"|model:"` looked up by `_parse` and `_udpProcessor`. -/
def modelMarker : Str := "|model:".data

/-- Marker `"|status:"` looked up by `_parse` and `_udpProcessor`. -/
def statusMarker : Str := "|status:".data

/-- Embedding of `SM2OutputDeviceManager._parse`.  The result is
`(id, name, model, status)`; `none` models the all-`None` tuple.  Note the
source tests the `find` positions for truthiness (`if p_model and p_status`),
so a position of `0` takes the `None` branch while the not-found value `-1`
would pass the test. -/
def parseReply (resp : Str) : Option (Str × Str × Str × Str) :=
  let p_model := pyFind resp modelMarker
  let p_status := pyFind resp statusMarker
  if p_model ≠ 0 ∧ p_status ≠ 0 then
    let id := pySliceTo resp p_model
    let name := pySliceTo id (lastIdxOf id '@')
    let model := pySlice resp (p_model + 7) p_status
    let status := pySliceFrom resp (p_status + 8)
    some (id, name, model, status)
  else
    none

/-- Embedding of `SM2OutputDeviceManager._tokensKeyName`: the identity key
`"name@model"` under which sessions and tokens are stored. -/
def tokensKeyName (name model : Str) : Str :=
  name ++ '@' :: model

/-- Filter applied by `SM2OutputDeviceManager._udpProcessor` to each decoded
datagram: only messages containing both markers enter the discovered set. -/
def udpAccepts (msg : Str) : Bool :=
  containsSub msg modelMarker && containsSub msg statusMarker

/-- Embedding of the collection loop of `_udpProcessor`: the discovered set
built from a batch of decoded datagrams `(ip, msg)`. -/
def udpProcessor (datagrams : List (Str × Str)) : List (Str × Str) :=
  datagrams.filter fun d => udpAccepts d.2

/-- Last-wins lookup in an association list, modelling a Python dict built
by successive assignments. -/
def dictGet? (l : List (Str × Str)) (k : Str) : Option Str :=
  (l.reverse.find? (fun p => p.1 == k)).map (·.2)

/-- Observable effects of `SM2OutputDeviceManager.addOutputDevice` on the
device table: device creations, token seeding and status updates. -/
inductive DevAction where
  | create (id ip : Str)
  | setTok (id tok : Str)
  | setStatus (id status : Str)
deriving DecidableEq

/-- Embedding of `SM2OutputDeviceManager.addOutputDevice`: walk the
discovered set, skip entries whose parsed `id` is falsy (`None` or empty),
create a device when the id is not yet known, seed its token when the
identity key is in the token store, and push the reported status. -/
def addOutputDeviceActions (tokens : List (Str × Str)) (existing : List Str) :
    List (Str × Str) → List DevAction
  | [] => []
  | (ip, resp) :: rest =>
    match parseReply resp with
    | none => addOutputDeviceActions tokens existing rest
    | some (id, name, model, status) =>
      if id = [] then addOutputDeviceActions tokens existing rest
      else
        let creation := if existing.contains id then [] else [DevAction.create id ip]
        let tokAct :=
          match dictGet? tokens (tokensKeyName name model) with
          | some t => [DevAction.setTok id t]
          | none => []
        creation ++ tokAct ++ [DevAction.setStatus id status] ++
          addOutputDeviceActions tokens (id :: existing) rest

/-- One manager discovery round for a batch of datagrams: `_udpProcessor`
filters the datagrams, and `addOutputDevice` runs only when the resulting
set is non-empty and differs from the previously discovered set. -/
def managerPoll (tokens : List (Str × Str)) (existing : List Str)
    (prev : List (Str × Str)) (datagrams : List (Str × Str)) : List DevAction :=
  let devices := udpProcessor datagrams
  if devices ≠ [] ∧ devices ≠ prev then
    addOutputDeviceActions tokens existing devices
  else []

/-! ## Discovery reply parsing (SM2OutputDevicePlugin.__onData) -/

/-- Python `s.rsplit(c, 1)` for a one-character separator: split at the
last occurrence, `none` when the separator is absent. -/
def pyRSplit1 (s : Str) (c : Char) : Option (Str × Str) :=
  let k := lastIdxOf s c
  if k < 0 then none
  else some (s.take k.toNat, s.drop (k.toNat + 1))

/-- Property collection loop of `__onData`: parts without a colon are
skipped, a part splitting into exactly a key and a value is recorded, and a
part with more than one colon makes `part.split(":")` unpack fail with a
`ValueError` (modelled as `none`). -/
def buildProps : List Str → Option (List (Str × Str))
  | [] => some []
  | part :: rest =>
    if part.contains ':' then
      match splitOnChar ':' part with
      | [k, v] => (buildProps rest).map (fun ps => (k, v) :: ps)
      | _ => none
    else buildProps rest

/-- Embedding of `SM2OutputDevicePlugin._deviceId`. -/
def deviceId (name model : Str) : Str :=
  name ++ '@' :: model

/-- Outcome of one `__onData` call: either a normal return, reporting the
newly created device (id and seeded token) when one was added, or an
uncaught `ValueError` escaping from the property loop. -/
inductive OnDataOutcome where
  | ok (created : Option (Str × Str))
  | valueError
deriving DecidableEq

/-- Embedding of `SM2OutputDevicePlugin.__onData`: split the message on
`|`, require an `@` in the head segment, collect `key:value` properties,
require the `model` property to start with `"Snapmaker 2"`, and create a
device (token seeded from the token store) when the identity is new.
`existing` models the ids known to the output device manager. -/
def onData (tokens : List (Str × Str)) (existing : List Str) (msg : Str) :
    OnDataOutcome :=
  match splitOnChar '|' msg with
  | [] => .ok none
  | p0 :: rest =>
    if p0.contains '@' then
      match pyRSplit1 p0 '@' with
      | none => .ok none
      | some (name, _address) =>
        match buildProps rest with
        | none => .valueError
        | some props =>
          let model := (dictGet? props "model".data).getD []
          if "Snapmaker 2".data.isPrefixOf model then
            let id := deviceId name model
            if existing.contains id then .ok none
            else .ok (some (id, (dictGet? tokens id).getD []))
          else .ok none
    else .ok none

/-! ## Device session state machine (SM2OutputDevice) -/

/-- Connection states of the framework's `ConnectionState` enum used by the
plugin. -/
inductive ConnState where
  | closed
  | connecting
  | connected
  | busy
  | error
deriving DecidableEq

/-- Authentication states of the framework's `AuthState` enum used by the
plugin. -/
inductive AuthSt where
  | notAuthenticated
  | authenticationRequested
  | authenticated
  | authenticationDenied
deriving DecidableEq

/-- Subset of `QNetworkReply.NetworkError` relevant to the handler: the
source whitelists `NoError` and `AuthenticationRequiredError` (the error Qt
attaches to an HTTP 401 reply); every other value takes the transport-error
branch.  `internalServerError` is the value Qt attaches to an HTTP 500
reply, `connectionRefusedError` a representative response-less failure. -/
inductive NetErr where
  | noError
  | authenticationRequiredError
  | connectionRefusedError
  | internalServerError
  | otherError
deriving DecidableEq

/-- HTTP operation of a finished reply (`reply.operation()`). -/
inductive HttpMethod where
  | get
  | post
deriving DecidableEq

/-- Finished network reply as observed by `_onRequestFinished`: the full
request URL, the transport error code, the HTTP status attribute (absent
when no HTTP exchange happened), the operation, and the two JSON body
fields the handler reads (`status` for `/status`, `token` for `/connect`);
`none` models a missing field or an invalid JSON body. -/
structure Reply where
  urlPath : Str
  error : NetErr
  httpCode : Option Nat
  operation : HttpMethod
  bodyStatus : Option Str
  bodyToken : Option Str
deriving DecidableEq

/-- Session state of one `SM2OutputDevice`.  `auth_token` is a Python
string or `None` (`none`); the initial value is `some []` (the empty
string).  `progressVisible` models `self._progress.visible`; while the
progress message is visible its 3-second heartbeat timer polls `/status`.
`needAuthVisible` models `self._need_auth.visible`; while the auth prompt
is visible its 1.5-second timer polls `/status`. -/
structure DeviceState where
  auth_token : Option Str
  sending_gcode : Bool
  connectionState : ConnState
  authenticationState : AuthSt
  progressVisible : Bool
  needAuthVisible : Bool
deriving DecidableEq

/-- Python truthiness of the `_auth_token` attribute: `None` and the empty
string are falsy. -/
def tokenTruthy : Option Str → Bool
  | none => false
  | some t => t ≠ []

/-- Network requests a handler can issue, tagged with the token they
carry. -/
inductive Request where
  | connectReq (token : Option Str)
  | statusReq (token : Option Str)
  | uploadReq (token : Option Str)
  | disconnectReq (token : Option Str)
deriving DecidableEq

/-- User-visible messages a handler can show. -/
inductive UiMsg where
  | transportError
  | connectError (code : Nat)
  | sentTo
  | unableBusy
  | preparing
deriving DecidableEq

/-- Embedding of `SM2OutputDevice._upload`: without a truthy token the
method returns before any network call; otherwise it posts the multipart
`/upload` request (filename synthesis and the gcode stream come from
external collaborators and are abstracted away). -/
def uploadStep (s : DeviceState) : DeviceState × List Request :=
  if tokenTruthy s.auth_token then (s, [Request.uploadReq s.auth_token])
  else (s, [])

/-- Embedding of `SM2OutputDevice._byebye` (connected to `writeFinished`):
posts `/disconnect` when a truthy token is held. -/
def byebye (s : DeviceState) : DeviceState × List Request :=
  if tokenTruthy s.auth_token then (s, [Request.disconnectReq s.auth_token])
  else (s, [])

/-- Embedding of `SM2OutputDevice._onConnectionStateChanged` (the id guard
always passes for the device's own signal): when the session is connected
and authenticated and a gcode send is pending with no progress message yet,
show the progress message and start the upload. -/
def onConnectionStateChanged (s : DeviceState) : DeviceState × List Request :=
  if s.connectionState = ConnState.connected ∧
      s.authenticationState = AuthSt.authenticated then
    if s.sending_gcode ∧ s.progressVisible = false then
      uploadStep { s with progressVisible := true }
    else (s, [])
  else (s, [])

/-- Embedding of `SM2OutputDevice._onAuthenticationStateChanged`. -/
def onAuthenticationStateChanged (s : DeviceState) : DeviceState :=
  match s.authenticationState with
  | AuthSt.authenticated => { s with needAuthVisible := false }
  | AuthSt.authenticationRequested => { s with needAuthVisible := true }
  | AuthSt.authenticationDenied =>
    { s with auth_token := some [], sending_gcode := false, needAuthVisible := false }
  | _ => s

/-- Framework `setConnectionState`: the state is stored and the
`connectionStateChanged` signal emitted only when the value changes; the
plugin's connected handler then runs. -/
def setConnectionState (s : DeviceState) (c : ConnState) :
    DeviceState × List Request :=
  if s.connectionState = c then (s, [])
  else onConnectionStateChanged { s with connectionState := c }

/-- Framework `setAuthenticationState`: the state is stored and the
`authenticationStateChanged` signal emitted only when the value changes;
the plugin's connected handler then runs. -/
def setAuthenticationState (s : DeviceState) (a : AuthSt) : DeviceState :=
  if s.authenticationState = a then s
  else onAuthenticationStateChanged { s with authenticationState := a }

/-- Embedding of `SM2OutputDevice.checkStatus`: a GET of `/status` with the
current token in the query string. -/
def checkStatus (s : DeviceState) : List Request :=
  [Request.statusReq s.auth_token]

/-- Modelled from the spec: the inherited framework `connect()` called on
the 403 path is not part of src/; per the specification's session state
machine it performs the automatic `/connect` retry, so it is modelled as
moving the connection state to `connecting` and issuing one `/connect`
request carrying the current token. -/
def connectStep (s : DeviceState) : DeviceState × List Request :=
  let r := setConnectionState s ConnState.connecting
  (r.1, r.2 ++ [Request.connectReq r.1.auth_token])

/-- Embedding of `SM2OutputDevice.setDeviceStatus`: the device-reported
status string drives the connection state. -/
def setDeviceStatus (s : DeviceState) (status : Str) :
    DeviceState × List Request :=
  if status = "IDLE".data then
    if s.connectionState ≠ ConnState.connected then
      setConnectionState s ConnState.connected
    else (s, [])
  else if status = "RUNNING".data ∨ status = "PAUSED".data ∨ status = "STOPPED".data then
    if s.connectionState ≠ ConnState.busy then
      setConnectionState s ConnState.busy
    else (s, [])
  else (s, [])

/-- Embedding of `SM2OutputDevice.requestWrite`: reject when the device is
busy or a progress/auth prompt is still visible; otherwise mark the gcode
send pending, reset the session states, and start the (external) write job
that later triggers `/connect`. -/
def requestWrite (s : DeviceState) : DeviceState × List Request × List UiMsg :=
  if s.connectionState = ConnState.busy then (s, [], [UiMsg.unableBusy])
  else if s.progressVisible = true ∨ s.needAuthVisible = true then (s, [], [])
  else
    let s1 := { s with sending_gcode := true }
    let r1 := setConnectionState s1 ConnState.closed
    let s2 := setAuthenticationState r1.1 AuthSt.notAuthenticated
    (s2, r1.2, [UiMsg.preparing])

/-- URL fragment `self._api_prefix + "/status"` tested by the handler. -/
def statusPath : Str := ":8080/api/v1/status".data

/-- URL fragment `self._api_prefix + "/connect"` tested by the handler. -/
def connectPath : Str := ":8080/api/v1/connect".data

/-- URL fragment `self._api_prefix + "/upload"` tested by the handler. -/
def uploadPath : Str := ":8080/api/v1/upload".data

/-- Embedding of `SM2OutputDevice._onRequestFinished`, the central reply
dispatcher.  The result is the new session state, the network requests
issued while handling the reply, and the user-visible messages shown. -/
def onRequestFinished (s : DeviceState) (r : Reply) :
    DeviceState × List Request × List UiMsg :=
  if r.error ≠ NetErr.noError ∧ r.error ≠ NetErr.authenticationRequiredError then
    let c := setConnectionState s ConnState.closed
    (c.1, c.2, [UiMsg.transportError])
  else
    match r.httpCode with
    | none => (s, [], [])
    | some code =>
      if code = 0 then (s, [], [])
      else
        match r.operation with
        | HttpMethod.get =>
          if containsSub r.urlPath statusPath then
            if code = 200 then
              let s1 := setAuthenticationState s AuthSt.authenticated
              let device_status := r.bodyStatus.getD "UNKNOWN".data
              let d := setDeviceStatus s1 device_status
              (d.1, d.2, [])
            else if code = 401 then
              (setAuthenticationState s AuthSt.authenticationDenied, [], [])
            else if code = 204 then
              (setAuthenticationState s AuthSt.authenticationRequested, [], [])
            else
              (setAuthenticationState s AuthSt.notAuthenticated, [], [])
          else (s, [], [])
        | HttpMethod.post =>
          if containsSub r.urlPath connectPath then
            if code = 200 then
              let token := r.bodyToken
              let s1 := if s.auth_token ≠ token then { s with auth_token := token } else s
              (s1, checkStatus s1, [])
            else if code = 403 ∧ tokenTruthy s.auth_token then
              let s1 := { s with auth_token := some [] }
              let c := connectStep s1
              (c.1, c.2, [])
            else
              let c := setConnectionState s ConnState.closed
              (c.1, c.2, [UiMsg.connectError code])
          else if containsSub r.urlPath uploadPath then
            let s1 := { s with progressVisible := false }
            let b := byebye s1
            let s2 := { b.1 with sending_gcode := false }
            (s2, b.2, [UiMsg.sentTo])
          else (s, [], [])

/-! ## Concrete sample states, replies and messages used in witnesses -/

/-- Session holding a token with an upload pending and the progress message
visible. -/
def s0 : DeviceState :=
  ⟨some "tok".data, true, ConnState.connected, AuthSt.authenticated, true, false⟩

/-- Idle authenticated session holding a token. -/
def sIdle : DeviceState :=
  ⟨some "tok".data, false, ConnState.connected, AuthSt.authenticated, false, false⟩

/-- Session after a token clear, holding the empty token. -/
def sEmptyTok : DeviceState :=
  ⟨some [], false, ConnState.connecting, AuthSt.notAuthenticated, false, false⟩

/-- Unauthenticated closed session with the empty initial token. -/
def sFresh : DeviceState :=
  ⟨some [], false, ConnState.closed, AuthSt.notAuthenticated, false, false⟩

/-- Sample upload request URL as built by the framework. -/
def upUrl : Str := "http://10.0.0.5:8080/api/v1/upload".data

/-- Sample status request URL as built by `checkStatus`. -/
def stUrl : Str := "http://10.0.0.5:8080/api/v1/status?token=tok".data

/-- Sample connect request URL as built by the framework. -/
def cnUrl : Str := "http://10.0.0.5:8080/api/v1/connect".data

/-- Reply of an `/upload` POST answered with HTTP 500; Qt reports the 500
as the transport-level `InternalServerError` code on the reply. -/
def replyUpload500 : Reply :=
  ⟨upUrl, NetErr.internalServerError, some 500, HttpMethod.post, none, none⟩

/-- Hypothetical `/upload` POST with HTTP 500 delivered without a
transport-level error mark. -/
def replyUpload500NoErr : Reply :=
  ⟨upUrl, NetErr.noError, some 500, HttpMethod.post, none, none⟩

/-- Status GET that failed at the transport level: no HTTP response at all,
hence no status-code attribute. -/
def replyNetFail : Reply :=
  ⟨stUrl, NetErr.connectionRefusedError, none, HttpMethod.get, none, none⟩

/-- Status GET answered with HTTP 204 (device waiting for the human tap). -/
def replyStatus204 : Reply :=
  ⟨stUrl, NetErr.noError, some 204, HttpMethod.get, none, none⟩

/-- Status GET answered with HTTP 200 and body status IDLE. -/
def replyStatus200 : Reply :=
  ⟨stUrl, NetErr.noError, some 200, HttpMethod.get, some "IDLE".data, none⟩

/-- Status GET answered with HTTP 401 (Qt marks it with the whitelisted
authentication-required error code). -/
def replyStatus401 : Reply :=
  ⟨stUrl, NetErr.authenticationRequiredError, some 401, HttpMethod.get, none, none⟩

/-- Connect POST answered with HTTP 403. -/
def replyConnect403 : Reply :=
  ⟨cnUrl, NetErr.noError, some 403, HttpMethod.post, none, none⟩

/-- Discovery reply of the round-trip scenario. -/
def c1example : Str :=
  "Snapmaker-ABC@192.168.1.5|model:Snapmaker 2 Model A350|status:IDLE".data

/-- Device identity expected from the round-trip scenario. -/
def c1target : Str := "Snapmaker-ABC@Snapmaker 2 Model A350".data

/-- Discovery reply with a valid model but no status marker. -/
def c6msg : Str := "A@1.2.3.4|model:Snapmaker 2 Model A350".data

/-- Discovery reply that starts with the model marker (empty head
segment). -/
def c10resp : Str := "|model:Snapmaker 2 Model A350|status:IDLE".data

/-! ## Helper lemmas -/

theorem scs_fields (s : DeviceState) (c : ConnState) :
    (setConnectionState s c).1.connectionState = c ∧
    (setConnectionState s c).1.auth_token = s.auth_token ∧
    (setConnectionState s c).1.authenticationState = s.authenticationState ∧
    (setConnectionState s c).1.sending_gcode = s.sending_gcode ∧
    (setConnectionState s c).1.needAuthVisible = s.needAuthVisible := by
  unfold setConnectionState onConnectionStateChanged uploadStep
  by_cases h : s.connectionState = c
  · simp [h]
  · simp only [if_neg h]
    split
    · split
      · split <;> simp
      · simp
    · simp

theorem scs_reqs_of_ne_connected (s : DeviceState) (c : ConnState)
    (h : c ≠ ConnState.connected) :
    (setConnectionState s c).2 = [] := by
  unfold setConnectionState onConnectionStateChanged uploadStep
  by_cases hc : s.connectionState = c
  · simp [hc]
  · simp only [if_neg hc]
    split
    · next hcc => exact absurd hcc.1 h
    · simp

theorem sds_fields (s : DeviceState) (status : Str) :
    (setDeviceStatus s status).1.auth_token = s.auth_token ∧
    (setDeviceStatus s status).1.authenticationState = s.authenticationState ∧
    (setDeviceStatus s status).1.sending_gcode = s.sending_gcode ∧
    (setDeviceStatus s status).1.needAuthVisible = s.needAuthVisible := by
  unfold setDeviceStatus
  split
  · split
    · have h := scs_fields s ConnState.connected
      exact ⟨h.2.1, h.2.2.1, h.2.2.2.1, h.2.2.2.2⟩
    · simp
  · split
    · split
      · have h := scs_fields s ConnState.busy
        exact ⟨h.2.1, h.2.2.1, h.2.2.2.1, h.2.2.2.2⟩
      · simp
    · simp

theorem findIdx?_of_isPrefixOf (pat s : Str) (h : pat.isPrefixOf s = true) :
    findIdx? pat s = some 0 := by
  cases s <;> simp_all [findIdx?]

theorem findIdx?_cons_of_not_prefix (pat : Str) (a : Char) (t : Str)
    (h : pat.isPrefixOf (a :: t) = false) :
    findIdx? pat (a :: t) = (findIdx? pat t).map (· + 1) := by
  simp [findIdx?, h]

theorem findIdx?_append_of_head_notin (p : Char) (pt pre rest : Str)
    (h : p ∉ pre) :
    findIdx? (p :: pt) (pre ++ rest) =
      (findIdx? (p :: pt) rest).map (· + pre.length) := by
  induction pre with
  | nil =>
    simp only [List.nil_append, List.length_nil]
    cases findIdx? (p :: pt) rest <;> simp
  | cons a pre ih =>
    have hap : a ≠ p := fun hh => h (hh ▸ List.mem_cons_self a pre)
    have hp : p ∉ pre := fun hh => h (List.mem_cons_of_mem a hh)
    have hnp : (p :: pt).isPrefixOf (a :: (pre ++ rest)) = false := by
      simp [List.isPrefixOf]
      intro hpa
      exact absurd hpa.symm hap
    rw [List.cons_append, findIdx?_cons_of_not_prefix _ _ _ hnp, ih hp]
    cases findIdx? (p :: pt) rest with
    | none => rfl
    | some v => simp [List.length_cons]; omega

theorem findIdx?_isSome_iff (pat s : Str) :
    (findIdx? pat s).isSome = true ↔ ∃ i, pat.isPrefixOf (s.drop i) = true := by
  induction s with
  | nil =>
    constructor
    · intro h
      refine ⟨0, ?_⟩
      simp only [findIdx?] at h
      by_cases hp : pat.isPrefixOf [] = true
      · simpa using hp
      · simp [hp] at h
    · rintro ⟨i, hi⟩
      simp only [List.drop_nil] at hi
      simp [findIdx?, hi]
  | cons a t ih =>
    by_cases hp : pat.isPrefixOf (a :: t) = true
    · constructor
      · intro _
        exact ⟨0, by simpa using hp⟩
      · intro _
        simp [findIdx?, hp]
    · have hpf : pat.isPrefixOf (a :: t) = false := by
        cases hpp : pat.isPrefixOf (a :: t) with
        | false => rfl
        | true => exact absurd hpp hp
      have hstep : findIdx? pat (a :: t) = (findIdx? pat t).map (· + 1) :=
        findIdx?_cons_of_not_prefix pat a t hpf
      constructor
      · intro h
        rw [hstep] at h
        have : (findIdx? pat t).isSome = true := by
          cases hft : findIdx? pat t <;> simp [hft] at h ⊢
        obtain ⟨i, hi⟩ := ih.mp this
        exact ⟨i + 1, by simpa using hi⟩
      · rintro ⟨i, hi⟩
        cases i with
        | zero =>
          simp only [List.drop_zero] at hi
          exact absurd hi hp
        | succ j =>
          rw [hstep]
          have : (findIdx? pat t).isSome = true := ih.mpr ⟨j, by simpa using hi⟩
          cases hft : findIdx? pat t <;> simp [hft] at this ⊢

theorem containsSub_tail (s : Str) (c : Char) (pat : Str)
    (h : containsSub s (c :: pat) = true) : containsSub s pat = true := by
  unfold containsSub at h ⊢
  obtain ⟨i, hi⟩ := (findIdx?_isSome_iff (c :: pat) s).mp h
  cases hd : s.drop i with
  | nil => rw [hd] at hi; simp [List.isPrefixOf] at hi
  | cons b u =>
    rw [hd] at hi
    simp only [List.isPrefixOf, Bool.and_eq_true, beq_iff_eq] at hi
    refine (findIdx?_isSome_iff pat s).mpr ⟨i + 1, ?_⟩
    have hdrop : s.drop (i + 1) = u := by
      rw [← List.tail_drop, hd]
      rfl
    rw [hdrop]
    exact hi.2

theorem lastIdxOf_cons (a : Char) (t : Str) (c : Char) :
    lastIdxOf (a :: t) c =
      if lastIdxOf t c ≥ 0 then lastIdxOf t c + 1
      else if a = c then 0 else -1 := rfl

theorem lastIdxOf_notin (s : Str) (c : Char) (h : c ∉ s) :
    lastIdxOf s c = -1 := by
  induction s with
  | nil => rfl
  | cons a t ih =>
    have hac : a ≠ c := fun hh => h (hh ▸ List.mem_cons_self a t)
    have hct : c ∉ t := fun hh => h (List.mem_cons_of_mem a hh)
    rw [lastIdxOf_cons, ih hct]
    simp [hac]

theorem lastIdxOf_sep (pre tail : Str) (c : Char) (h : c ∉ tail) :
    lastIdxOf (pre ++ c :: tail) c = pre.length := by
  induction pre with
  | nil =>
    rw [List.nil_append, lastIdxOf_cons, lastIdxOf_notin tail c h]
    simp
  | cons a pre ih =>
    rw [List.cons_append, lastIdxOf_cons, ih,
      if_pos (show (pre.length : Int) ≥ 0 from Int.ofNat_nonneg _)]
    simp [List.length_cons]

/-! ## Claim theorems -/

/-- C5: at most one upload per session is in flight at any time: a
requestWrite call made while an upload is already pending (progress or auth
prompt visible) or while the session's connection state is BUSY is rejected
immediately, leaves the session state unchanged, and issues zero network
requests; it is not queued. -/
theorem spec_C5_singleFlightRejection (s : DeviceState)
    (h : s.connectionState = ConnState.busy ∨ s.progressVisible = true ∨
      s.needAuthVisible = true) :
    (requestWrite s).1 = s ∧ (requestWrite s).2.1 = [] := by
  unfold requestWrite
  by_cases hb : s.connectionState = ConnState.busy
  · simp [hb]
  · have hv : s.progressVisible = true ∨ s.needAuthVisible = true := by tauto
    simp [hb, hv]

/-- Witness for C5 at a session with the progress message visible. -/
theorem spec_C5_witness :
    (requestWrite s0).1 = s0 ∧ (requestWrite s0).2.1 = [] :=
  spec_C5_singleFlightRejection s0 (Or.inr (Or.inl (by decide)))

/-- C7: a device-reported status string of IDLE sets the connection state
to CONNECTED, each of RUNNING, PAUSED, STOPPED sets it to BUSY, and any
other status string leaves the session completely unchanged. -/
theorem spec_C7_deviceStatusMapping (s : DeviceState) (status : Str) :
    (status = "IDLE".data →
      (setDeviceStatus s status).1.connectionState = ConnState.connected) ∧
    ((status = "RUNNING".data ∨ status = "PAUSED".data ∨ status = "STOPPED".data) →
      (setDeviceStatus s status).1.connectionState = ConnState.busy) ∧
    ((status ≠ "IDLE".data ∧
      ¬(status = "RUNNING".data ∨ status = "PAUSED".data ∨ status = "STOPPED".data)) →
      (setDeviceStatus s status).1 = s ∧ (setDeviceStatus s status).2 = []) := by
  refine ⟨?_, ?_, ?_⟩
  · intro h
    subst h
    unfold setDeviceStatus
    rw [if_pos rfl]
    by_cases hc : s.connectionState = ConnState.connected
    · simp [hc]
    · simp only [if_pos (by simpa using hc)]
      exact (scs_fields s ConnState.connected).1
  · intro h
    unfold setDeviceStatus
    have hne : ¬(status = "IDLE".data) := by
      rcases h with h | h | h <;> subst h <;> decide
    rw [if_neg hne, if_pos h]
    by_cases hc : s.connectionState = ConnState.busy
    · simp [hc]
    · simp only [if_pos (by simpa using hc)]
      exact (scs_fields s ConnState.busy).1
  · rintro ⟨h1, h2⟩
    unfold setDeviceStatus
    rw [if_neg h1, if_neg h2]
    exact ⟨rfl, rfl⟩

/-- Witness for C7 at concrete status strings. -/
theorem spec_C7_witness :
    (setDeviceStatus sIdle "IDLE".data).1.connectionState = ConnState.connected ∧
    (setDeviceStatus sIdle "PAUSED".data).1.connectionState = ConnState.busy ∧
    (setDeviceStatus sIdle "HEATING".data).1 = sIdle ∧
    (setDeviceStatus sIdle "HEATING".data).2 = [] :=
  ⟨(spec_C7_deviceStatusMapping sIdle _).1 rfl,
   (spec_C7_deviceStatusMapping sIdle _).2.1 (Or.inr (Or.inl rfl)),
   ((spec_C7_deviceStatusMapping sIdle _).2.2 (by decide)).1,
   ((spec_C7_deviceStatusMapping sIdle _).2.2 (by decide)).2⟩

/-- C10: the reply parser of SM2OutputDeviceManager tests the marker
positions for truthiness rather than against -1, so a discovery reply that
begins with the model marker (empty name-at-address segment, find position
0) parses to the all-None tuple and addOutputDevice creates no output
device, even though both required markers are present in the reply. -/
theorem spec_C10_truthinessZeroPosition (resp : Str)
    (hpre : modelMarker.isPrefixOf resp = true)
    (_hstat : containsSub resp statusMarker = true) :
    parseReply resp = none ∧
    ∀ (ip : Str) (tokens : List (Str × Str)) (existing : List Str),
      addOutputDeviceActions tokens existing [(ip, resp)] = [] := by
  have hfind : findIdx? modelMarker resp = some 0 :=
    findIdx?_of_isPrefixOf modelMarker resp hpre
  have hparse : parseReply resp = none := by
    unfold parseReply pyFind
    rw [hfind]
    simp
  refine ⟨hparse, ?_⟩
  intro ip tokens existing
  unfold addOutputDeviceActions
  rw [hparse]
  rfl

/-- Witness for C10 at a concrete reply with an empty head segment. -/
theorem spec_C10_witness :
    parseReply c10resp = none ∧
    addOutputDeviceActions [] [] [("9.9.9.9".data, c10resp)] = [] :=
  ⟨(spec_C10_truthinessZeroPosition c10resp (by decide) (by decide)).1,
   (spec_C10_truthinessZeroPosition c10resp (by decide) (by decide)).2
     "9.9.9.9".data [] []⟩

/-- C6 counterexample: a discovery reply that lacks the status marker but
carries a valid Snapmaker 2 model is not skipped by
SM2OutputDevicePlugin.__onData — it creates a new output device, so one
discovery poll does create a device record from a reply missing the status
marker. -/
theorem spec_C6_counterexample :
    containsSub c6msg "status:".data = false ∧
    onData [] [] c6msg =
      OnDataOutcome.ok (some ("A@Snapmaker 2 Model A350".data, [])) := by
  decide

/-- C6 amended: in the discovery engine registered by the plugin's entry
point (SM2OutputDeviceManager), every discovery reply lacking the model
marker or the status marker is rejected by the `_udpProcessor` filter, so a
discovery round over such a reply performs no device-table action at all —
no creation, no token seeding, no status update — and raises nothing. -/
theorem spec_C6_managerSkipsMalformed (msg : Str)
    (h : containsSub msg "model:".data = false ∨
      containsSub msg "status:".data = false) :
    udpAccepts msg = false ∧
    ∀ (ip : Str) (tokens : List (Str × Str)) (existing : List Str)
      (prev : List (Str × Str)),
      managerPoll tokens existing prev [(ip, msg)] = [] := by
  have hacc : udpAccepts msg = false := by
    cases hud : udpAccepts msg with
    | false => rfl
    | true =>
      unfold udpAccepts at hud
      rw [Bool.and_eq_true] at hud
      have hm : containsSub msg "model:".data = true := by
        have := hud.1
        rw [show modelMarker = '|' :: "model:".data from by decide] at this
        exact containsSub_tail msg '|' "model:".data this
      have hs : containsSub msg "status:".data = true := by
        have := hud.2
        rw [show statusMarker = '|' :: "status:".data from by decide] at this
        exact containsSub_tail msg '|' "status:".data this
      rcases h with h | h
      · rw [hm] at h; cases h
      · rw [hs] at h; cases h
  refine ⟨hacc, ?_⟩
  intro ip tokens existing prev
  unfold managerPoll udpProcessor
  simp [hacc]

/-- Witness for the amended C6 at a concrete malformed reply. -/
theorem spec_C6_witness :
    udpAccepts "Snapmaker-X@10.0.0.2|ready".data = false ∧
    managerPoll [] [] [] [("10.0.0.2".data, "Snapmaker-X@10.0.0.2|ready".data)] = [] :=
  ⟨(spec_C6_managerSkipsMalformed "Snapmaker-X@10.0.0.2|ready".data
      (Or.inl (by decide))).1,
   (spec_C6_managerSkipsMalformed "Snapmaker-X@10.0.0.2|ready".data
      (Or.inl (by decide))).2 "10.0.0.2".data [] [] []⟩

/-- C9: whenever the session enters AUTH_DENIED because `/status` returned
HTTP 401, the stored token is cleared unconditionally, regardless of its
previous value, and the pending gcode send is dropped. -/
theorem spec_C9_authDeniedClearsToken (s : DeviceState) (r : Reply)
    (hurl : containsSub r.urlPath statusPath = true)
    (herr : r.error = NetErr.noError ∨ r.error = NetErr.authenticationRequiredError)
    (hcode : r.httpCode = some 401) (hop : r.operation = HttpMethod.get)
    (hden : s.authenticationState ≠ AuthSt.authenticationDenied) :
    (onRequestFinished s r).1.auth_token = some [] ∧
    (onRequestFinished s r).1.authenticationState = AuthSt.authenticationDenied ∧
    (onRequestFinished s r).1.sending_gcode = false := by
  have herr2 : ¬(r.error ≠ NetErr.noError ∧
      r.error ≠ NetErr.authenticationRequiredError) := by tauto
  unfold onRequestFinished
  rw [if_neg herr2, hcode, hop]
  simp [hurl, setAuthenticationState, onAuthenticationStateChanged, hden]

/-- Witness for C9 at an authenticated session holding a token. -/
theorem spec_C9_witness :
    (onRequestFinished sIdle replyStatus401).1.auth_token = some [] ∧
    (onRequestFinished sIdle replyStatus401).1.authenticationState =
      AuthSt.authenticationDenied ∧
    (onRequestFinished sIdle replyStatus401).1.sending_gcode = false :=
  spec_C9_authDeniedClearsToken sIdle replyStatus401 (by decide)
    (Or.inr (by decide)) (by decide) (by decide) (by decide)

theorem scs_progress_of_ne_connected (s : DeviceState) (c : ConnState)
    (h : c ≠ ConnState.connected) :
    (setConnectionState s c).1.progressVisible = s.progressVisible := by
  unfold setConnectionState onConnectionStateChanged uploadStep
  by_cases hc : s.connectionState = c
  · simp [hc]
  · simp only [if_neg hc]
    split
    · next hcc => exact absurd hcc.1 h
    · simp

theorem byebye_fst (s : DeviceState) : (byebye s).1 = s := by
  unfold byebye
  split <;> rfl

theorem status200_effect (s : DeviceState) (r : Reply)
    (hu : containsSub r.urlPath statusPath = true)
    (he : r.error = NetErr.noError ∨ r.error = NetErr.authenticationRequiredError)
    (hcode : r.httpCode = some 200) (hop : r.operation = HttpMethod.get)
    (hne : s.authenticationState ≠ AuthSt.authenticated) :
    (onRequestFinished s r).1.authenticationState = AuthSt.authenticated ∧
    (onRequestFinished s r).1.needAuthVisible = false := by
  have he2 : ¬(r.error ≠ NetErr.noError ∧
      r.error ≠ NetErr.authenticationRequiredError) := by tauto
  unfold onRequestFinished
  rw [if_neg he2, hcode, hop]
  have hA : setAuthenticationState s AuthSt.authenticated =
      { s with authenticationState := AuthSt.authenticated,
               needAuthVisible := false } := by
    unfold setAuthenticationState
    rw [if_neg hne]
    rfl
  have h1 := (sds_fields
    { s with authenticationState := AuthSt.authenticated, needAuthVisible := false }
    (r.bodyStatus.getD "UNKNOWN".data)).2.1
  have h2 := (sds_fields
    { s with authenticationState := AuthSt.authenticated, needAuthVisible := false }
    (r.bodyStatus.getD "UNKNOWN".data)).2.2.2
  simp [hu, hA, h1, h2]

/-- C2 counterexample: when `/upload` finishes with HTTP 500, Qt marks the
reply with a transport-level error code, so the handler takes the error
branch: the failure is reported but the sending-gcode flag and the progress
indicator are NOT cleared, contrary to the claim; and were the 500 delivered
without the error mark, the upload branch would report unconditional
success rather than failure. -/
theorem spec_C2_counterexample :
    ((onRequestFinished s0 replyUpload500).1.sending_gcode = true ∧
     (onRequestFinished s0 replyUpload500).1.progressVisible = true ∧
     (onRequestFinished s0 replyUpload500).2.2 = [UiMsg.transportError]) ∧
    (onRequestFinished s0 replyUpload500NoErr).2.2 = [UiMsg.sentTo] := by
  decide

/-- C2 amended: when the `/upload` request finishes with a transport-level
error indication (as Qt reports an HTTP 500), the handler reports the
failure to the user with the transport error string, sets the connection
state to Closed and issues no further automatic retries, but the
sending-gcode flag and the progress indicator are left set, not cleared;
an `/upload` completion carrying no transport-level error mark is instead
reported as success unconditionally, with both markers cleared, regardless
of the HTTP status code. -/
theorem spec_C2_uploadFailureBehavior :
    (∀ (s : DeviceState) (r : Reply),
      containsSub r.urlPath uploadPath = true →
      r.error ≠ NetErr.noError →
      r.error ≠ NetErr.authenticationRequiredError →
      (onRequestFinished s r).2.2 = [UiMsg.transportError] ∧
      (onRequestFinished s r).1.connectionState = ConnState.closed ∧
      (onRequestFinished s r).1.sending_gcode = s.sending_gcode ∧
      (onRequestFinished s r).1.progressVisible = s.progressVisible ∧
      (onRequestFinished s r).2.1 = []) ∧
    (∀ (s : DeviceState) (r : Reply),
      containsSub r.urlPath uploadPath = true →
      containsSub r.urlPath connectPath = false →
      r.error = NetErr.noError → r.httpCode = some 500 →
      r.operation = HttpMethod.post →
      (onRequestFinished s r).1.sending_gcode = false ∧
      (onRequestFinished s r).1.progressVisible = false ∧
      (onRequestFinished s r).2.2 = [UiMsg.sentTo]) := by
  constructor
  · intro s r hu h1 h2
    unfold onRequestFinished
    rw [if_pos ⟨h1, h2⟩]
    have ha := scs_fields s ConnState.closed
    exact ⟨rfl, ha.1, ha.2.2.2.1,
      scs_progress_of_ne_connected s ConnState.closed (by decide),
      scs_reqs_of_ne_connected s ConnState.closed (by decide)⟩
  · intro s r hu hc he hcode hop
    have he2 : ¬(r.error ≠ NetErr.noError ∧
        r.error ≠ NetErr.authenticationRequiredError) := by
      rw [he]; tauto
    unfold onRequestFinished
    rw [if_neg he2, hcode, hop]
    simp [hu, hc, byebye_fst]

/-- Witness for the amended C2 at concrete upload replies. -/
theorem spec_C2_witness :
    ((onRequestFinished s0 replyUpload500).2.2 = [UiMsg.transportError] ∧
     (onRequestFinished s0 replyUpload500).1.sending_gcode = s0.sending_gcode) ∧
    (onRequestFinished s0 replyUpload500NoErr).1.sending_gcode = false :=
  ⟨⟨(spec_C2_uploadFailureBehavior.1 s0 replyUpload500 (by decide) (by decide)
      (by decide)).1,
    (spec_C2_uploadFailureBehavior.1 s0 replyUpload500 (by decide) (by decide)
      (by decide)).2.2.1⟩,
   (spec_C2_uploadFailureBehavior.2 s0 replyUpload500NoErr (by decide) (by decide)
      rfl rfl rfl).1⟩

/-- C3 counterexample: a transport-level failure (no HTTP response) leaves
the session's connection state at CLOSED, not ERROR, and does not touch the
authentication state — an authenticated session stays authenticated rather
than becoming NOT_AUTHENTICATED. -/
theorem spec_C3_counterexample :
    (onRequestFinished sIdle replyNetFail).1.connectionState ≠ ConnState.error ∧
    (onRequestFinished sIdle replyNetFail).1.authenticationState ≠
      AuthSt.notAuthenticated ∧
    (onRequestFinished sIdle replyNetFail).1.authenticationState =
      AuthSt.authenticated := by
  decide

/-- C3 amended: for every request whose transport reports a network-level
failure, the session's connection state becomes CLOSED (not ERROR) and its
authentication state and token are left unchanged (not set to
NOT_AUTHENTICATED); a dismissable error message is shown and no retry is
issued, so the state remains one the next scheduled poll can revise. -/
theorem spec_C3_networkFailureBehavior (s : DeviceState) (r : Reply)
    (h1 : r.error ≠ NetErr.noError)
    (h2 : r.error ≠ NetErr.authenticationRequiredError)
    (_hc : r.httpCode = none) :
    (onRequestFinished s r).1.connectionState = ConnState.closed ∧
    (onRequestFinished s r).1.authenticationState = s.authenticationState ∧
    (onRequestFinished s r).1.auth_token = s.auth_token ∧
    (onRequestFinished s r).2.1 = [] ∧
    (onRequestFinished s r).2.2 = [UiMsg.transportError] := by
  unfold onRequestFinished
  rw [if_pos ⟨h1, h2⟩]
  have ha := scs_fields s ConnState.closed
  exact ⟨ha.1, ha.2.2.1, ha.2.1,
    scs_reqs_of_ne_connected s ConnState.closed (by decide), rfl⟩

/-- Witness for the amended C3 at a concrete response-less failure. -/
theorem spec_C3_witness :
    (onRequestFinished sIdle replyNetFail).1.connectionState = ConnState.closed ∧
    (onRequestFinished sIdle replyNetFail).1.authenticationState =
      sIdle.authenticationState ∧
    (onRequestFinished sIdle replyNetFail).2.1 = [] :=
  ⟨(spec_C3_networkFailureBehavior sIdle replyNetFail (by decide) (by decide) rfl).1,
   (spec_C3_networkFailureBehavior sIdle replyNetFail (by decide) (by decide) rfl).2.1,
   (spec_C3_networkFailureBehavior sIdle replyNetFail (by decide) (by decide) rfl).2.2.2.1⟩

/-- C4: if `/connect` returns HTTP 403 while the session holds a non-empty
token, the token is cleared and exactly one automatic `/connect` retry is
issued, carrying the now-empty token; if `/connect` returns 403 while the
token is empty (as after that retry), the guard fails, no further retry is
issued, and the session is closed with an error message — the 403 path
cannot loop. -/
theorem spec_C4_connect403SingleRetry :
    (∀ (s : DeviceState) (r : Reply),
      containsSub r.urlPath connectPath = true →
      (r.error = NetErr.noError ∨ r.error = NetErr.authenticationRequiredError) →
      r.httpCode = some 403 → r.operation = HttpMethod.post →
      tokenTruthy s.auth_token = true →
      (onRequestFinished s r).1.auth_token = some [] ∧
      (onRequestFinished s r).2.1 = [Request.connectReq (some [])] ∧
      (onRequestFinished s r).2.2 = []) ∧
    (∀ (s : DeviceState) (r : Reply),
      containsSub r.urlPath connectPath = true →
      (r.error = NetErr.noError ∨ r.error = NetErr.authenticationRequiredError) →
      r.httpCode = some 403 → r.operation = HttpMethod.post →
      tokenTruthy s.auth_token = false →
      (onRequestFinished s r).2.1 = [] ∧
      (onRequestFinished s r).1.connectionState = ConnState.closed ∧
      (onRequestFinished s r).2.2 = [UiMsg.connectError 403]) := by
  constructor
  · intro s r hurl herr hcode hop htok
    have herr2 : ¬(r.error ≠ NetErr.noError ∧
        r.error ≠ NetErr.authenticationRequiredError) := by tauto
    unfold onRequestFinished
    rw [if_neg herr2, hcode, hop]
    have h1 := scs_reqs_of_ne_connected { s with auth_token := some ([] : Str) }
      ConnState.connecting (by decide)
    have h2 := (scs_fields { s with auth_token := some ([] : Str) }
      ConnState.connecting).2.1
    simp [hurl, htok, connectStep, h1, h2]
  · intro s r hurl herr hcode hop htok
    have herr2 : ¬(r.error ≠ NetErr.noError ∧
        r.error ≠ NetErr.authenticationRequiredError) := by tauto
    unfold onRequestFinished
    rw [if_neg herr2, hcode, hop]
    have h1 := scs_reqs_of_ne_connected s ConnState.closed (by decide)
    have h2 := (scs_fields s ConnState.closed).1
    simp [hurl, htok, h1, h2]

/-- Witness for C4: the first 403 with a non-empty token issues exactly one
retry with the empty token; a 403 at the resulting empty-token session
issues none. -/
theorem spec_C4_witness :
    ((onRequestFinished sIdle replyConnect403).1.auth_token = some [] ∧
     (onRequestFinished sIdle replyConnect403).2.1 =
       [Request.connectReq (some [])]) ∧
    ((onRequestFinished sEmptyTok replyConnect403).2.1 = [] ∧
     (onRequestFinished sEmptyTok replyConnect403).2.2 =
       [UiMsg.connectError 403]) :=
  ⟨⟨(spec_C4_connect403SingleRetry.1 sIdle replyConnect403 (by decide)
       (Or.inl (by decide)) (by decide) (by decide) (by decide)).1,
    (spec_C4_connect403SingleRetry.1 sIdle replyConnect403 (by decide)
       (Or.inl (by decide)) (by decide) (by decide) (by decide)).2.1⟩,
   ⟨(spec_C4_connect403SingleRetry.2 sEmptyTok replyConnect403 (by decide)
       (Or.inl (by decide)) (by decide) (by decide) (by decide)).1,
    (spec_C4_connect403SingleRetry.2 sEmptyTok replyConnect403 (by decide)
       (Or.inl (by decide)) (by decide) (by decide) (by decide)).2.2⟩⟩

/-- C8: when `/status` returns HTTP 204 the session enters
AUTH_REQUESTED and the auth prompt is shown (its short-interval poll timer
runs while the prompt is visible); when a subsequent `/status` returns 200
the session transitions to AUTHENTICATED and the prompt is dismissed. -/
theorem spec_C8_authRequestedPromptFlow (s : DeviceState) (r1 r2 : Reply)
    (h1u : containsSub r1.urlPath statusPath = true)
    (h1e : r1.error = NetErr.noError ∨ r1.error = NetErr.authenticationRequiredError)
    (h1c : r1.httpCode = some 204) (h1o : r1.operation = HttpMethod.get)
    (h2u : containsSub r2.urlPath statusPath = true)
    (h2e : r2.error = NetErr.noError ∨ r2.error = NetErr.authenticationRequiredError)
    (h2c : r2.httpCode = some 200) (h2o : r2.operation = HttpMethod.get)
    (hs : s.authenticationState ≠ AuthSt.authenticationRequested) :
    (onRequestFinished s r1).1.authenticationState =
      AuthSt.authenticationRequested ∧
    (onRequestFinished s r1).1.needAuthVisible = true ∧
    (onRequestFinished (onRequestFinished s r1).1 r2).1.authenticationState =
      AuthSt.authenticated ∧
    (onRequestFinished (onRequestFinished s r1).1 r2).1.needAuthVisible = false := by
  have h1e2 : ¬(r1.error ≠ NetErr.noError ∧
      r1.error ≠ NetErr.authenticationRequiredError) := by tauto
  have hstep1 : (onRequestFinished s r1).1 =
      { s with authenticationState := AuthSt.authenticationRequested,
               needAuthVisible := true } := by
    have hA : setAuthenticationState s AuthSt.authenticationRequested =
        { s with authenticationState := AuthSt.authenticationRequested,
                 needAuthVisible := true } := by
      unfold setAuthenticationState
      rw [if_neg hs]
      rfl
    unfold onRequestFinished
    rw [if_neg h1e2, h1c, h1o]
    simp [h1u, hA]
  have hstep2 := status200_effect
    { s with authenticationState := AuthSt.authenticationRequested,
             needAuthVisible := true } r2 h2u h2e h2c h2o (by simp)
  refine ⟨?_, ?_, ?_, ?_⟩
  · rw [hstep1]
  · rw [hstep1]
  · rw [hstep1]; exact hstep2.1
  · rw [hstep1]; exact hstep2.2

/-- Witness for C8 at an unauthenticated idle session and concrete status
replies. -/
theorem spec_C8_witness :
    (onRequestFinished sFresh replyStatus204).1.authenticationState =
      AuthSt.authenticationRequested ∧
    (onRequestFinished sFresh replyStatus204).1.needAuthVisible = true ∧
    (onRequestFinished (onRequestFinished sFresh replyStatus204).1
        replyStatus200).1.authenticationState = AuthSt.authenticated ∧
    (onRequestFinished (onRequestFinished sFresh replyStatus204).1
        replyStatus200).1.needAuthVisible = false :=
  spec_C8_authRequestedPromptFlow sFresh replyStatus204 replyStatus200
    (by decide) (Or.inl (by decide)) (by decide) (by decide)
    (by decide) (Or.inl (by decide)) (by decide) (by decide) (by decide)

theorem findIdx?_append_marker (pat pre rest : Str) (p : Char) (pt : Str)
    (hpat : pat = p :: pt) (h : p ∉ pre) :
    findIdx? pat (pre ++ rest) = (findIdx? pat rest).map (· + pre.length) := by
  subst hpat
  exact findIdx?_append_of_head_notin p pt pre rest h

theorem parseReply_wellFormed (name ip model status : Str)
    (hn : '|' ∉ name) (hi : '|' ∉ ip) (hm : '|' ∉ model) (ha : '@' ∉ ip) :
    parseReply ((name ++ '@' :: ip) ++
        (modelMarker ++ (model ++ (statusMarker ++ status)))) =
      some (name ++ '@' :: ip, name, model, status) := by
  have hpre1 : '|' ∉ name ++ '@' :: ip := by
    intro h
    rcases List.mem_append.mp h with h | h
    · exact hn h
    · rcases List.mem_cons.mp h with h | h
      · exact absurd h (by decide)
      · exact hi h
  have hmid : '|' ∉ "model:".data ++ model := by
    intro h
    rcases List.mem_append.mp h with h | h
    · exact absurd h (by decide)
    · exact hm h
  have eM : findIdx? modelMarker
      ((name ++ '@' :: ip) ++ (modelMarker ++ (model ++ (statusMarker ++ status)))) =
      some (name ++ '@' :: ip).length := by
    rw [findIdx?_append_marker modelMarker (name ++ '@' :: ip) _ '|' "model:".data
      (by decide) hpre1]
    rw [findIdx?_of_isPrefixOf modelMarker _
      (List.isPrefixOf_iff_prefix.mpr (List.prefix_append _ _))]
    simp
  have hnp : List.isPrefixOf statusMarker
      ('|' :: ("model:".data ++ (model ++ (statusMarker ++ status)))) = false := by
    rw [show statusMarker = '|' :: 's' :: "tatus:".data from by decide,
      show ("model:".data : Str) = 'm' :: "odel:".data from by decide,
      List.cons_append]
    simp [List.isPrefixOf]
  have estep : findIdx? statusMarker
      (modelMarker ++ (model ++ (statusMarker ++ status))) =
      (findIdx? statusMarker
        ("model:".data ++ (model ++ (statusMarker ++ status)))).map (· + 1) := by
    rw [show modelMarker = '|' :: "model:".data from by decide, List.cons_append]
    exact findIdx?_cons_of_not_prefix _ _ _ hnp
  have estep2 : findIdx? statusMarker
      ("model:".data ++ (model ++ (statusMarker ++ status))) =
      (findIdx? statusMarker (statusMarker ++ status)).map
        (· + ("model:".data ++ model).length) := by
    rw [show "model:".data ++ (model ++ (statusMarker ++ status)) =
      ("model:".data ++ model) ++ (statusMarker ++ status) from by
        rw [List.append_assoc]]
    exact findIdx?_append_marker statusMarker _ _ '|' "status:".data (by decide) hmid
  have estep3 : findIdx? statusMarker (statusMarker ++ status) = some 0 :=
    findIdx?_of_isPrefixOf _ _
      (List.isPrefixOf_iff_prefix.mpr (List.prefix_append _ _))
  have eS : findIdx? statusMarker
      ((name ++ '@' :: ip) ++ (modelMarker ++ (model ++ (statusMarker ++ status)))) =
      some ((name ++ '@' :: ip).length + (7 + model.length)) := by
    rw [findIdx?_append_marker statusMarker (name ++ '@' :: ip) _ '|' "status:".data
      (by decide) hpre1]
    rw [estep, estep2, estep3]
    simp [List.length_append,
      show ("model:".data : Str).length = 6 from by decide]
    omega
  have hpM : pyFind ((name ++ '@' :: ip) ++
      (modelMarker ++ (model ++ (statusMarker ++ status)))) modelMarker =
      ((name ++ '@' :: ip).length : Int) := by
    unfold pyFind
    rw [eM]
  have hpS : pyFind ((name ++ '@' :: ip) ++
      (modelMarker ++ (model ++ (statusMarker ++ status)))) statusMarker =
      (((name ++ '@' :: ip).length + (7 + model.length) : Nat) : Int) := by
    unfold pyFind
    rw [eS]
  have hlen1 : (name ++ '@' :: ip).length = name.length + ip.length + 1 := by
    simp [List.length_append, List.length_cons]
    omega
  have hcond : (((name ++ '@' :: ip).length : Int) ≠ 0 ∧
      (((name ++ '@' :: ip).length + (7 + model.length) : Nat) : Int) ≠ 0) := by
    constructor <;> · rw [hlen1]; omega
  have hid : pySliceTo ((name ++ '@' :: ip) ++
      (modelMarker ++ (model ++ (statusMarker ++ status))))
      (((name ++ '@' :: ip).length : Nat) : Int) = name ++ '@' :: ip := by
    unfold pySliceTo resolveIdx
    rw [if_neg (by omega : ¬(((name ++ '@' :: ip).length : Int) < 0)),
      Int.toNat_natCast]
    exact List.take_left _ _
  have hname : pySliceTo (name ++ '@' :: ip)
      (lastIdxOf (name ++ '@' :: ip) '@') = name := by
    rw [lastIdxOf_sep name ip '@' ha]
    unfold pySliceTo resolveIdx
    rw [if_neg (by omega : ¬((name.length : Int) < 0)), Int.toNat_natCast]
    exact List.take_left _ _
  have hgroupM : (name ++ '@' :: ip) ++
      (modelMarker ++ (model ++ (statusMarker ++ status))) =
      (((name ++ '@' :: ip) ++ modelMarker) ++ model) ++
        (statusMarker ++ status) := by
    simp [List.append_assoc]
  have hmodel : pySlice ((name ++ '@' :: ip) ++
      (modelMarker ++ (model ++ (statusMarker ++ status))))
      ((((name ++ '@' :: ip).length : Nat) : Int) + 7)
      (((name ++ '@' :: ip).length + (7 + model.length) : Nat) : Int) = model := by
    unfold pySlice resolveIdx
    rw [if_neg (by omega : ¬((((name ++ '@' :: ip).length : Nat) : Int) + 7 < 0)),
      if_neg (by omega :
        ¬((((name ++ '@' :: ip).length + (7 + model.length) : Nat) : Int) < 0)),
      Int.toNat_natCast,
      show ((((name ++ '@' :: ip).length : Nat) : Int) + 7).toNat =
        (name ++ '@' :: ip).length + 7 from by omega]
    rw [hgroupM]
    rw [List.take_left' (by
      simp [List.length_append,
        show (modelMarker : Str).length = 7 from by decide]
      omega)]
    exact List.drop_left' (by
      simp [List.length_append,
        show (modelMarker : Str).length = 7 from by decide]
      omega)
  have hgroupS : (name ++ '@' :: ip) ++
      (modelMarker ++ (model ++ (statusMarker ++ status))) =
      ((((name ++ '@' :: ip) ++ modelMarker) ++ model) ++ statusMarker) ++
        status := by
    simp [List.append_assoc]
  have hstatus : pySliceFrom ((name ++ '@' :: ip) ++
      (modelMarker ++ (model ++ (statusMarker ++ status))))
      ((((name ++ '@' :: ip).length + (7 + model.length) : Nat) : Int) + 8) =
      status := by
    unfold pySliceFrom resolveIdx
    rw [if_neg (by omega :
        ¬((((name ++ '@' :: ip).length + (7 + model.length) : Nat) : Int) + 8 < 0)),
      show ((((name ++ '@' :: ip).length + (7 + model.length) : Nat) : Int) + 8).toNat =
        (name ++ '@' :: ip).length + (7 + model.length) + 8 from by omega]
    rw [hgroupS]
    exact List.drop_left' (by
      simp [List.length_append,
        show (modelMarker : Str).length = 7 from by decide,
        show (statusMarker : Str).length = 8 from by decide]
      omega)
  simp only [parseReply]
  rw [hpM, hpS, if_pos hcond, hid, hname, hmodel, hstatus]

/-- C1: for every discovery reply of the canonical form
name at-sign ip, then the model marker, the model, the status marker and
the status (segments free of the pipe separator, address free of the
at-sign), the device identity computed by the manager's parser and
identity key is exactly name at-sign model; in particular the concrete
round-trip reply parses to the identity string
Snapmaker-ABC at Snapmaker 2 Model A350, in both the manager parser and
the plugin's onData path. -/
theorem spec_C1_identityRoundTrip (name ip model status : Str)
    (hn : '|' ∉ name) (hi : '|' ∉ ip) (hm : '|' ∉ model) (_hs : '|' ∉ status)
    (ha : '@' ∉ ip) :
    (parseReply ((name ++ '@' :: ip) ++
        (modelMarker ++ (model ++ (statusMarker ++ status)))) =
      some (name ++ '@' :: ip, name, model, status) ∧
     tokensKeyName name model = name ++ '@' :: model) ∧
    (parseReply c1example =
        some ("Snapmaker-ABC@192.168.1.5".data, "Snapmaker-ABC".data,
          "Snapmaker 2 Model A350".data, "IDLE".data) ∧
     tokensKeyName "Snapmaker-ABC".data "Snapmaker 2 Model A350".data =
        c1target ∧
     onData [] [] c1example = OnDataOutcome.ok (some (c1target, []))) :=
  ⟨⟨parseReply_wellFormed name ip model status hn hi hm ha, rfl⟩, by decide⟩

/-- Witness for C1 at the concrete segments of the round-trip scenario. -/
theorem spec_C1_witness :
    parseReply (("Snapmaker-ABC".data ++ '@' :: "192.168.1.5".data) ++
        (modelMarker ++ ("Snapmaker 2 Model A350".data ++
          (statusMarker ++ "IDLE".data)))) =
      some ("Snapmaker-ABC".data ++ '@' :: "192.168.1.5".data,
        "Snapmaker-ABC".data, "Snapmaker 2 Model A350".data, "IDLE".data) ∧
    tokensKeyName "Snapmaker-ABC".data "Snapmaker 2 Model A350".data =
      "Snapmaker-ABC".data ++ '@' :: "Snapmaker 2 Model A350".data :=
  (spec_C1_identityRoundTrip "Snapmaker-ABC".data "192.168.1.5".data
    "Snapmaker 2 Model A350".data "IDLE".data (by decide) (by decide)
    (by decide) (by decide) (by decide)).1
